import Mathlib

/-
A shallow embedding of the `ai-live` voice-agent core (Python sources under
`src/`), covering the conversation session type and registry (`session.py`),
the recognition retry policy (`stt.py`), the response-generation adapter
(`llm.py`), the synthesis adapter (`tts.py`), the end-of-conversation
analysis adapter (`analysis.py`), the pipeline orchestrator (`agent.py`)
and the WebSocket receive loop (`main.py`).

External collaborators (Whisper model, Gemini model, Kokoro pipeline,
`json.loads`, the process environment) are passed in as explicit oracle
parameters; everything else is translated directly from the source.

Python floats used as timestamps are modelled as `Nat` tick values supplied
by the caller; audio sample values (exact zeros in every path the claims
touch) are modelled as `Float`.
-/

set_option autoImplicit false

namespace AiLive

/-! ## session.py -/

/-- `Turn` dataclass from `session.py`: role, text, language, timestamp.
The `time.time()` default is modelled by an explicit `now` argument to
`add_turn`. -/
structure Turn where
  role : String
  text : String
  language : String
  timestamp : Nat
deriving DecidableEq, Repr

/-- One element of the list returned by `Session.get_history`: the
projection of a `Turn` to its `role` and `text` fields (the dict
`\x7b"role": t.role, "text": t.text\x7d` in the source). -/
structure HistEntry where
  role : String
  text : String
deriving DecidableEq, Repr

/-- A JSON-like Python value, used for the analysis result dict
(`json.loads` output, `result.get(...)` values). `pnum` carries an exact
rational, which suffices for the literals `0.5`, `0.0`, `1.0` and integer
turn counts appearing in this code. -/
inductive PyVal where
  | pstr (s : String)
  | pnum (q : ℚ)
  | pbool (b : Bool)
  | pnull
  | plist (xs : List PyVal)
  | pdict (kvs : List (String × PyVal))

/-- A Python dict with string keys, in insertion order. -/
abbrev PyDict := List (String × PyVal)

/-- Python `d.get(k)` / `d.get(k, None)` on a string-keyed dict. -/
def dictGet : PyDict → String → Option PyVal
  | [], _ => none
  | (k', v') :: rest, k => if k' = k then some v' else dictGet rest k

/-- Python `d[k] = v`: overwrite in place when the key exists (insertion
order preserved), append otherwise. -/
def dictSet : PyDict → String → PyVal → PyDict
  | [], k, v => [(k, v)]
  | (k', v') :: rest, k, v =>
      if k' = k then (k', v) :: rest else (k', v') :: dictSet rest k v

/-- `Session` dataclass from `session.py`.  `summary` and `sentiment` are
`Optional` in the source and receive arbitrary `result.get(...)` values in
`agent.end_session`, hence `Option PyVal` here. -/
structure Session where
  session_id : String
  turns : List Turn
  created_at : Nat
  ended : Bool
  summary : Option PyVal
  sentiment : Option PyVal

/-- `Session.add_turn` from `session.py`: appends unconditionally — the
source contains no guard on `ended`. -/
def Session.add_turn (s : Session) (role text language : String) (now : Nat) : Session :=
  { s with turns := s.turns ++ [{ role := role, text := text, language := language, timestamp := now }] }

/-- `Session.get_history`: the turn list projected to `role`/`text` pairs,
in insertion order. -/
def Session.get_history (s : Session) : List HistEntry :=
  s.turns.map (fun t => { role := t.role, text := t.text })

/-- `Session.last_activity`: timestamp of the last turn, else `created_at`. -/
def Session.last_activity (s : Session) : Nat :=
  match s.turns.getLast? with
  | some t => t.timestamp
  | none => s.created_at

/-- `Session.end` (renamed: `end` is a Lean keyword): sets the `ended`
flag. -/
def Session.end' (s : Session) : Session :=
  { s with ended := true }

/-- The module-level `_sessions` dict, modelled by its lookup function. -/
def Registry := String → Option Session

/-- `create_session` (the fresh `Session()` with its generated uuid is
passed in explicitly): inserts the session under its id. -/
def create_session (m : Registry) (s : Session) : Registry :=
  fun k => if k = s.session_id then some s else m k

/-- `get_session`: `_sessions.get(session_id)`. -/
def get_session (m : Registry) (sid : String) : Option Session :=
  m sid

/-- `remove_session`: `_sessions.pop(session_id, None)` — removes the entry
when present; with the `None` default, a missing id is a no-op and never
raises (modelled by totality). -/
def remove_session (m : Registry) (sid : String) : Registry :=
  fun k => if k = sid then none else m k

/-! ## Python string helpers -/

/-- Python `str.strip()` with no arguments: whitespace trimmed from both
sides.  Implemented structurally over the character list so that it
reduces in the kernel (the whitespace set is the ASCII fragment shared by
Python and `Char.isWhitespace`; no claim depends on exotic whitespace). -/
def pyStrip (s : String) : String :=
  ⟨((s.data.dropWhile Char.isWhitespace).reverse.dropWhile Char.isWhitespace).reverse⟩

/-- Python `" ".join(parts)`. -/
def joinSpace : List String → String
  | [] => ""
  | [s] => s
  | s :: rest => s ++ " " ++ joinSpace rest

/-- Python `s.startswith(pre)`. -/
def pyStartsWith (s pre : String) : Bool :=
  pre.data.isPrefixOf s.data

/-- Python `s.endswith(suf)`. -/
def pyEndsWith (s suf : String) : Bool :=
  suf.data.isSuffixOf s.data

/-- Python `s.split(sep, 1)[1]` for a one-character separator: everything
after the first occurrence (the whole list when the separator is
absent — the source only applies this under an `in` test). -/
def afterFirstChar (sep : Char) : List Char → List Char
  | [] => []
  | c :: rest => if c = sep then rest else afterFirstChar sep rest

/-- Python `x or default` for an optional string `x`: `None` and the empty
string are falsy. -/
def pyOrStr (x : Option String) (default : String) : String :=
  match x with
  | none => default
  | some s => if s = "" then default else s

/-! ## stt.py -/

/-- The `info` object returned by `model.transcribe`: its `language`
attribute (`none` models Python `None`). -/
structure RecogInfo where
  language : Option String
deriving DecidableEq, Repr

/-- One `model.transcribe` invocation's outcome: the `segment.text` values
in order, plus the `info` object. -/
structure RecogPass where
  segments : List String
  info : RecogInfo
deriving DecidableEq, Repr

/-- The text assembled from one pass in `transcribe`:
`" ".join(seg.text.strip() for seg in segments).strip()`. -/
def passText (p : RecogPass) : String :=
  pyStrip (joinSpace (p.segments.map pyStrip))

/-- The value returned by `stt.transcribe`, instrumented with the
`vad_filter` flag of each `model.transcribe` call actually made, in call
order. -/
structure STTResult where
  text : String
  language : String
  vadCalls : List Bool
deriving DecidableEq, Repr

/-- `stt.transcribe` from `stt.py`: first pass with the VAD filter; if its
assembled text is empty, exactly one retry with `vad_filter=False`, whose
segments and `info` replace the first pass's (the source rebinds both
`segments` and `info`); finally `detected_lang = info.language or "en"`.
The two recognizer outcomes are oracle parameters; audio decoding and
resampling only feed the external model and are absorbed into them. -/
def transcribe (pass1 pass2 : RecogPass) : STTResult :=
  let full_text := passText pass1
  if full_text = "" then
    { text := passText pass2
      language := pyOrStr pass2.info.language "en"
      vadCalls := [true, false] }
  else
    { text := full_text
      language := pyOrStr pass1.info.language "en"
      vadCalls := [true] }

/-! ## llm.py -/

/-- One entry of the history handed to `model.start_chat` in
`generate_response`: role mapped into Gemini's vocabulary, text wrapped in
a one-element `parts` list. -/
structure GeminiMsg where
  role : String
  parts : List String
deriving DecidableEq, Repr

/-- The history-shaping loop of `llm.generate_response`: `"user"` stays
`"user"`, every other role becomes `"model"`. -/
def toGeminiHistory (history : List HistEntry) : List GeminiMsg :=
  history.map (fun t =>
    { role := if t.role = "user" then "user" else "model", parts := [t.text] })

/-- The `lang_hints` table of `generate_response`, with `dict.get`'s empty
default. -/
def lang_hints (detected_language : String) : String :=
  if detected_language = "fr" then "(The user is speaking French. Respond in French.)\n"
  else if detected_language = "id" then "(The user is speaking Indonesian. Respond in English.)\n"
  else ""

/-- `llm.generate_response`: shapes the history, prepends the language
hint to the user text, sends it to the external chat model (the oracle
`chat`, standing for `model.start_chat(history=...).send_message(...)`),
and returns the stripped reply. -/
def generate_response (chat : List GeminiMsg → String → String)
    (user_text : String) (conversation_history : List HistEntry)
    (detected_language : String) : String :=
  pyStrip (chat (toGeminiHistory conversation_history)
    (lang_hints detected_language ++ user_text))

/-! ## tts.py -/

/-- Oracle inputs to `tts.synthesize`: the audio arrays yielded by the
external Kokoro pipeline for this text (one `Option` per yielded tuple,
`none` modelling `audio is None`), and the configured
`tts.sample_rate`.  Voice and pipeline resolution (`_resolve_voice`,
`_get_pipeline`) only select which external pipeline produces
`pipelineOut` and are absorbed into it. -/
structure TTSEnv where
  pipelineOut : List (Option (List Float))
  sample_rate : Nat

/-- The WAV buffer written by `sf.write(..., format="WAV",
subtype="PCM_16")` at the end of `tts.synthesize`, kept structured. -/
structure SynthOut where
  sampleRate : Nat
  format : String
  subtype : String
  samples : List Float
  warned : Bool

/-- `tts.synthesize` from `tts.py`: collect the non-`None` audio arrays;
if none were yielded, log a warning and substitute a single silence buffer
of `int(sample_rate * 0.5)` zero samples (`sample_rate / 2` — exact for
every representable rate); concatenate and encode as 16-bit PCM WAV at the
configured rate.  No path in this function raises. -/
def synthesize (env : TTSEnv) (_text : String) : SynthOut :=
  let audio_segments := env.pipelineOut.filterMap id
  if audio_segments.isEmpty then
    { sampleRate := env.sample_rate, format := "WAV", subtype := "PCM_16"
      samples := List.replicate (env.sample_rate / 2) (0.0 : Float)
      warned := true }
  else
    { sampleRate := env.sample_rate, format := "WAV", subtype := "PCM_16"
      samples := audio_segments.flatten
      warned := false }

/-! ## config.py / analysis.py -/

/-- `config.gemini_api_key`: `os.environ.get("GEMINI_API_KEY", "")`,
raising `RuntimeError` when the result is empty.  The environment variable
is the `Option String` argument. -/
def gemini_api_key (envVar : Option String) : Except String String :=
  let key := envVar.getD ""
  if key = "" then
    Except.error "GEMINI_API_KEY not set. Copy .env.example to .env and add your key."
  else
    Except.ok key

/-- The fence-stripping block of `analysis.analyze_conversation`, applied
to `response.text.strip()` before `json.loads`. -/
def stripFences (rawText : String) : String :=
  let raw := pyStrip rawText
  let raw :=
    if pyStartsWith raw "```" then
      if raw.data.contains '\n' then (⟨afterFirstChar '\n' raw.data⟩ : String)
      else (⟨raw.data.drop 3⟩ : String)
    else raw
  let raw :=
    if pyEndsWith raw "```" then (⟨raw.data.take (raw.data.length - 3)⟩ : String) else raw
  let raw := pyStrip raw
  if pyStartsWith raw "json" then pyStrip ⟨raw.data.drop 4⟩ else raw

/-- Oracle inputs to `analysis.analyze_conversation`: the `GEMINI_API_KEY`
environment variable, the outcome of the external
`model.generate_content(...).text` call (`Except.error` = the call
raised), and the behaviour of `json.loads` on the string it is given. -/
structure AnalysisEnv where
  apiKey : Option String
  modelRaw : Except String String
  loads : String → Except String PyVal

/-- The transcript assembled for the prompt in `analyze_conversation`:
role-labelled lines joined by newlines.  It is only embedded in the prompt
sent to the external model. -/
def transcript (history : List HistEntry) : String :=
  String.intercalate "\n"
    (history.map (fun t =>
      (if t.role = "user" then "User" else "Assistant") ++ ": " ++ t.text))

/-- The fixed result for an empty history in `analyze_conversation`. -/
def empty_history_dict : PyDict :=
  [("summary", PyVal.pstr "No conversation took place."),
   ("sentiment", PyVal.pdict
      [("overall", PyVal.pstr "neutral"),
       ("score", PyVal.pnum (1 / 2)),
       ("details", PyVal.pstr "Empty conversation.")]),
   ("turn_count", PyVal.pnum 0),
   ("languages_used", PyVal.plist [])]

/-- The degraded result built in the `except` branch of
`analyze_conversation`, with `details = str(e)`. -/
def failure_dict (n : Nat) (err : String) : PyDict :=
  [("summary", PyVal.pstr "Analysis could not be completed."),
   ("sentiment", PyVal.pdict
      [("overall", PyVal.pstr "unknown"),
       ("score", PyVal.pnum (1 / 2)),
       ("details", PyVal.pstr err)]),
   ("turn_count", PyVal.pnum n),
   ("languages_used", PyVal.plist [])]

/-- Output of `analyze_conversation`: the returned dict, or
`Except.error` when an exception escapes to the caller; plus a flag
recording whether the external-client region (`genai.configure` onwards)
was reached. -/
structure AnalyzeOut where
  result : Except String PyDict
  externalCalled : Bool

/-- `analysis.analyze_conversation` from `analysis.py`.  The empty-history
short circuit returns its fixed dict before any external access.
`genai.configure(api_key=config.gemini_api_key())` sits OUTSIDE the
`try`, so a missing/empty `GEMINI_API_KEY` raises `RuntimeError` to the
caller.  Inside the `try`, a raising `generate_content`, a `json.loads`
failure, or a parsed non-dict (on which `result["turn_count"] = ...`
raises `TypeError`) all degrade to `failure_dict`; a parsed dict gets
`turn_count` assigned and is returned as-is — note `languages_used` is
not added on this path. -/
def analyze_conversation (env : AnalysisEnv) (history : List HistEntry) : AnalyzeOut :=
  match history with
  | [] => { result := Except.ok empty_history_dict, externalCalled := false }
  | _ :: _ =>
    match gemini_api_key env.apiKey with
    | Except.error e => { result := Except.error e, externalCalled := false }
    | Except.ok _ =>
      match env.modelRaw with
      | Except.error e =>
          { result := Except.ok (failure_dict history.length e), externalCalled := true }
      | Except.ok rawText =>
        match env.loads (stripFences rawText) with
        | Except.error e =>
            { result := Except.ok (failure_dict history.length e), externalCalled := true }
        | Except.ok (PyVal.pdict d) =>
            { result := Except.ok (dictSet d "turn_count" (PyVal.pnum history.length))
              externalCalled := true }
        | Except.ok _ =>
            { result := Except.ok (failure_dict history.length
                "TypeError: item assignment on non-dict json.loads result")
              externalCalled := true }

/-! ## agent.py -/

/-- Oracle inputs for one execution of the `agent.process_audio` pipeline:
the two recognizer pass outcomes consumed by `stt.transcribe`, the chat
model behaviour consumed by `llm.generate_response`, the synthesis-backend
behaviour consumed by `tts.synthesize`, and the timestamp used for
appended turns. -/
structure PipelineEnv where
  sttPass1 : RecogPass
  sttPass2 : RecogPass
  chat : List GeminiMsg → String → String
  tts : TTSEnv
  now : Nat

/-- How one execution of the `process_audio` coroutine body terminates. -/
inductive PAOutcome where
  | noneResult
      -- returned `None` (empty transcription)
  | awaitTypeError
      -- raised `TypeError` at `audio = await tts.synthesize(...)`:
      -- `tts.synthesize` is a plain function returning `bytes`, which
      -- cannot be awaited, so the `AgentResponse` is never built
deriving DecidableEq, Repr

/-- Observable record of one execution of the `process_audio` coroutine
body: the session as mutated, how the body terminated, the
`conversation_history` argument passed to `llm.generate_response` (if it
was invoked), the reply text, and whether `tts.synthesize` was invoked
(it runs — and returns — before the failing `await`). -/
structure PARun where
  session : Session
  outcome : PAOutcome
  llmHistoryArg : Option (List HistEntry)
  responseText : Option String
  ttsCalled : Bool

/-- The body of `agent.process_audio` (the coroutine's execution
semantics): transcribe; on empty stripped text return `None` with the
session untouched; otherwise append the user turn, call
`llm.generate_response` with `session.get_history()[:-1]`, append the
assistant turn with language `"fr"`, run `tts.synthesize`, then raise
`TypeError` at the `await` on its non-awaitable `bytes` result.

Note the deployed server never drives this coroutine: `main.py` calls
`agent.process_audio(...)` without `await` (see `handleFrames`). -/
def process_audio (env : PipelineEnv) (session : Session) : PARun :=
  let r := transcribe env.sttPass1 env.sttPass2
  if pyStrip r.text = "" then
    { session := session, outcome := PAOutcome.noneResult
      llmHistoryArg := none, responseText := none, ttsCalled := false }
  else
    let s1 := session.add_turn "user" r.text r.language env.now
    let hist := s1.get_history.dropLast
    let response_text := generate_response env.chat r.text hist r.language
    let s2 := s1.add_turn "assistant" response_text "fr" env.now
    { session := s2, outcome := PAOutcome.awaitTypeError
      llmHistoryArg := some hist, responseText := some response_text
      ttsCalled := true }

/-- `agent.end_session`: set `ended`, analyze the full history, store
`result.get("summary")` / `result.get("sentiment")` on the session; an
exception escaping `analyze_conversation` propagates with the session
already ended and `summary`/`sentiment` untouched. -/
def end_session (env : AnalysisEnv) (session : Session) : Except String PyDict × Session :=
  let s1 := session.end'
  match (analyze_conversation env s1.get_history).result with
  | Except.ok r =>
      (Except.ok r, { s1 with summary := dictGet r "summary", sentiment := dictGet r "sentiment" })
  | Except.error e => (Except.error e, s1)

/-! ## main.py -/

/-- One message received on the WebSocket, with the per-frame oracle data
attached: for a binary frame, its byte length, the outcome of the
`_webm_to_wav` ffmpeg conversion (`Except.error` = it raised), and the
pipeline behaviour the frame would see if the pipeline ran. -/
inductive ClientMsg where
  | endSession
  | ping
  | otherText
      -- a well-formed JSON control frame of any other type: both `if`
      -- blocks fall through and the loop continues silently
  | audio (size : Nat) (conv : Except String Unit) (penv : PipelineEnv)

/-- Events sent to the client by `websocket_audio`. -/
inductive OutEvt where
  | session_start (session_id : String)
  | transcription (text language : String)
  | response (text : String)
  | audioFrame (a : SynthOut)
  | errorEvt (message : String)
  | pong
  | summaryEvt (r : PyDict)

/-- Externally visible effects of the receive loop on the collaborators,
recorded in order.  `transcode` marks an invocation of `_webm_to_wav`
(the ffmpeg subprocess); `recognize` marks an invocation of
`stt.transcribe` — never emitted by the loop as written, because the
un-awaited `process_audio` coroutine never runs. -/
inductive Eff where
  | transcode
  | recognize
deriving DecidableEq, Repr

/-- The `finally` clause of `websocket_audio`:
`if not session.ended: session.end()`. -/
def cleanupEnd (s : Session) : Session :=
  if s.ended then s else s.end'

/-- The receive loop of `websocket_audio` in `main.py`, from its first
`ws.receive()` to the end of the handler, returning the final session,
the events sent, and the external effects.  An exhausted message list
models disconnect (`WebSocketDisconnect` → `finally`).

The audio branch is translated as the source stands: after a successful
conversion, `result = agent.process_audio(audio_wav, session)` is called
WITHOUT `await`, so `result` is an un-run coroutine object — the inner
`try` raises nothing, `result is None` is false, and evaluating
`result.user_text` for the transcription payload raises `AttributeError`,
which only the handler-level `except Exception` catches: the loop
terminates with no event sent for the frame and the `finally` clause
force-ends the session.  The session is never mutated and the recognizer,
chat model and synthesizer are never invoked, whatever `penv` says they
would return. -/
def handleFrames (env : AnalysisEnv) (s : Session) :
    List ClientMsg → Session × List OutEvt × List Eff
  | [] => (cleanupEnd s, [], [])
  | ClientMsg.ping :: rest =>
      let r := handleFrames env s rest
      (r.1, OutEvt.pong :: r.2.1, r.2.2)
  | ClientMsg.otherText :: rest => handleFrames env s rest
  | ClientMsg.endSession :: _rest =>
      -- `break` follows the summary emission: the rest of the stream is
      -- never received
      match end_session env s with
      | (Except.ok r, s') => (s', [OutEvt.summaryEvt r], [])
      | (Except.error _, s') => (s', [], [])
  | ClientMsg.audio size conv _penv :: rest =>
      if size < 1000 then
        -- empty or too-small chunk: empty transcription, continue
        let r := handleFrames env s rest
        (r.1, OutEvt.transcription "" "" :: r.2.1, r.2.2)
      else
        match conv with
        | Except.error _ =>
            -- `_webm_to_wav` raised: error event, continue
            let r := handleFrames env s rest
            (r.1, OutEvt.errorEvt "Audio format conversion failed." :: r.2.1,
             Eff.transcode :: r.2.2)
        | Except.ok _ =>
            -- un-awaited coroutine → AttributeError → outer except →
            -- finally
            (cleanupEnd s, [], [Eff.transcode])

/-- `websocket_audio` end to end: accept, create the session (its
generated id supplied as `sid`), emit `session_start`, then run the
receive loop. -/
def websocket_audio (env : AnalysisEnv) (sid : String) (createdAt : Nat)
    (msgs : List ClientMsg) : Session × List OutEvt × List Eff :=
  let s : Session :=
    { session_id := sid, turns := [], created_at := createdAt
      ended := false, summary := none, sentiment := none }
  let r := handleFrames env s msgs
  (r.1, OutEvt.session_start sid :: r.2.1, r.2.2)

/-! ## Helper lemmas and concrete inputs -/

/-- Appending one turn and dropping the last history entry recovers the
history as it was before the append. -/
theorem get_history_add_turn_dropLast (s : Session) (role text language : String) (now : Nat) :
    ((s.add_turn role text language now).get_history).dropLast = s.get_history := by
  simp [Session.add_turn, Session.get_history]

/-- `dictGet` after `dictSet` at the same key returns the assigned value. -/
theorem dictGet_dictSet_self (d : PyDict) (key : String) (v : PyVal) :
    dictGet (dictSet d key v) key = some v := by
  induction d with
  | nil => simp [dictSet, dictGet]
  | cons kv rest ih =>
    obtain ⟨k', v'⟩ := kv
    by_cases h : k' = key
    · simp [dictSet, dictGet, h]
    · simp [dictSet, dictGet, h, ih]

/-- `Except.isOk`, inlined to keep the development self-contained. -/
def exceptIsOk {α β : Type} : Except α β → Bool
  | Except.ok _ => true
  | Except.error _ => false

/-- A fresh session as built on WebSocket accept. -/
def freshSess : Session :=
  { session_id := "s0", turns := [], created_at := 0
    ended := false, summary := none, sentiment := none }

/-- A session holding one completed exchange. -/
def sessC1 : Session :=
  { session_id := "s1"
    turns := [{ role := "user", text := "Salut", language := "fr", timestamp := 0 },
              { role := "assistant", text := "Bonjour!", language := "fr", timestamp := 0 }]
    created_at := 0, ended := false, summary := none, sentiment := none }

/-- Pipeline behaviour for a frame recognized as French "Bonjour". -/
def bonjourPenv : PipelineEnv :=
  { sttPass1 := { segments := ["Bonjour"], info := { language := some "fr" } }
    sttPass2 := { segments := [], info := { language := none } }
    chat := fun _ _ => "Bonjour, comment puis-je vous aider?"
    tts := { pipelineOut := [some [0.1, 0.2]], sample_rate := 24000 }
    now := 1 }

/-- Pipeline behaviour for a frame whose recognition is empty on both
passes. -/
def silencePenv : PipelineEnv :=
  { sttPass1 := { segments := [], info := { language := none } }
    sttPass2 := { segments := [], info := { language := none } }
    chat := fun _ _ => ""
    tts := { pipelineOut := [], sample_rate := 24000 }
    now := 1 }

/-- An analysis environment; its fields are irrelevant to audio frames. -/
def anEnvC : AnalysisEnv :=
  { apiKey := some "test-key", modelRaw := Except.error "unused"
    loads := fun _ => Except.error "unused" }

/-! ## Claim theorems -/

/-- Claim C1: `get_history()` returns the turns in insertion order
projected to `role`/`text` only, and on a frame whose transcription is
non-empty the responder (`llm.generate_response`) receives exactly the
session history with the just-appended triggering user turn excluded —
the `get_history()[:-1]` taken after the append equals the history from
before the append. -/
theorem get_history_projection_and_responder_arg
    (s : Session) (env : PipelineEnv)
    (h : pyStrip (transcribe env.sttPass1 env.sttPass2).text ≠ "") :
    (∀ role text language now,
        (s.add_turn role text language now).turns
          = s.turns ++ [{ role := role, text := text, language := language, timestamp := now }]) ∧
    s.get_history = s.turns.map (fun t => { role := t.role, text := t.text }) ∧
    (process_audio env s).llmHistoryArg = some s.get_history ∧
    ((s.add_turn "user" (transcribe env.sttPass1 env.sttPass2).text
        (transcribe env.sttPass1 env.sttPass2).language env.now).get_history).dropLast
      = s.get_history := by
  refine ⟨fun _ _ _ _ => rfl, rfl, ?_, get_history_add_turn_dropLast ..⟩
  simp only [process_audio, h, if_neg, ite_false]
  simp [get_history_add_turn_dropLast]

/-- Claim C1 witness: on the concrete "Bonjour" frame over a two-turn
session, the responder receives exactly those two prior turns. -/
theorem get_history_projection_witness :
    pyStrip (transcribe bonjourPenv.sttPass1 bonjourPenv.sttPass2).text ≠ "" ∧
    (process_audio bonjourPenv sessC1).llmHistoryArg
      = some [{ role := "user", text := "Salut" }, { role := "assistant", text := "Bonjour!" }] := by
  have h : pyStrip (transcribe bonjourPenv.sttPass1 bonjourPenv.sttPass2).text ≠ "" := by decide
  refine ⟨h, ?_⟩
  rw [(get_history_projection_and_responder_arg sessC1 bonjourPenv h).2.2.1]
  rfl

/-- Claim C5: if the VAD-enabled first pass assembles empty text, exactly
one VAD-disabled retry is made and its text/language are returned (even
if the retry is also empty); a non-empty first pass makes no retry; and
the language falls back to `"en"` when the recognizer reports none. -/
theorem transcribe_retry_policy (p1 p2 : RecogPass) :
    (passText p1 = "" →
        transcribe p1 p2 =
          { text := passText p2, language := pyOrStr p2.info.language "en"
            vadCalls := [true, false] }) ∧
    (passText p1 ≠ "" →
        transcribe p1 p2 =
          { text := passText p1, language := pyOrStr p1.info.language "en"
            vadCalls := [true] }) ∧
    (passText p1 = "" → p2.info.language = none → (transcribe p1 p2).language = "en") ∧
    (passText p1 ≠ "" → p1.info.language = none → (transcribe p1 p2).language = "en") := by
  refine ⟨fun h => ?_, fun h => ?_, fun h hl => ?_, fun h hl => ?_⟩
  · simp [transcribe, h]
  · simp [transcribe, h]
  · simp [transcribe, h, hl, pyOrStr]
  · simp [transcribe, h, hl, pyOrStr]

/-- Claim C5 witness: a first pass of whitespace-only segments triggers
exactly one VAD-disabled retry, whose text is returned, with the fallback
language. -/
theorem transcribe_retry_witness :
    passText { segments := [""], info := { language := some "fr" } } = "" ∧
    transcribe { segments := [""], info := { language := some "fr" } }
        { segments := ["Bonjour"], info := { language := none } }
      = { text := "Bonjour", language := "en", vadCalls := [true, false] } := by
  have h : passText { segments := [""], info := { language := some "fr" } } = "" := by decide
  refine ⟨h, ?_⟩
  rw [(transcribe_retry_policy { segments := [""], info := { language := some "fr" } }
        { segments := ["Bonjour"], info := { language := none } }).1 h]
  rfl

/-- Claim C6: a binary frame below the 1000-byte minimum emits exactly an
empty `transcription` event, triggers neither the transcoder nor
recognition (no effect recorded), leaves the session untouched by that
frame, and the loop continues with the remaining messages. -/
theorem small_frame_empty_transcription
    (env : AnalysisEnv) (s : Session) (rest : List ClientMsg)
    (size : Nat) (conv : Except String Unit) (penv : PipelineEnv)
    (h : size < 1000) :
    handleFrames env s (ClientMsg.audio size conv penv :: rest) =
      ((handleFrames env s rest).1,
       OutEvt.transcription "" "" :: (handleFrames env s rest).2.1,
       (handleFrames env s rest).2.2) := by
  simp [handleFrames, h]

/-- Claim C6 witness: a 0-byte chunk as the sole message yields only the
empty transcription (plus the disconnect cleanup of the `finally`
clause). -/
theorem small_frame_witness :
    handleFrames anEnvC freshSess [ClientMsg.audio 0 (Except.ok ()) bonjourPenv]
      = (freshSess.end', [OutEvt.transcription "" ""], []) := by
  rw [small_frame_empty_transcription anEnvC freshSess [] 0 (Except.ok ()) bonjourPenv
        (by decide)]
  rfl

/-- Claim C8: the empty history short-circuits `analyze_conversation` to
its fixed deterministic dict — summary, neutral sentiment with score 0.5,
zero turn count, empty language list — without reaching the external
client, for every environment. -/
theorem analyze_empty_history (env : AnalysisEnv) :
    analyze_conversation env [] =
      { result := Except.ok empty_history_dict, externalCalled := false } ∧
    empty_history_dict =
      [("summary", PyVal.pstr "No conversation took place."),
       ("sentiment", PyVal.pdict
          [("overall", PyVal.pstr "neutral"),
           ("score", PyVal.pnum (1 / 2)),
           ("details", PyVal.pstr "Empty conversation.")]),
       ("turn_count", PyVal.pnum 0),
       ("languages_used", PyVal.plist [])] :=
  ⟨rfl, rfl⟩

/-- Claim C9: when the synthesis backend yields no audio segments,
`synthesize` returns (never raises) a 0.5-second silence buffer at the
configured sample rate — `int(sample_rate * 0.5)` zero samples — encoded
as PCM_16 WAV, with the warning flag set. -/
theorem synthesize_empty_backend (env : TTSEnv) (text : String)
    (h : env.pipelineOut.filterMap id = []) :
    synthesize env text =
      { sampleRate := env.sample_rate, format := "WAV", subtype := "PCM_16"
        samples := List.replicate (env.sample_rate / 2) (0.0 : Float)
        warned := true } := by
  simp [synthesize, h]

/-- Claim C9 witness: a backend yielding a single `None` segment at the
default 24 kHz rate produces 12000 zero samples of PCM_16 WAV. -/
theorem synthesize_empty_backend_witness :
    synthesize { pipelineOut := [none], sample_rate := 24000 } "Bonjour"
      = { sampleRate := 24000, format := "WAV", subtype := "PCM_16"
          samples := List.replicate (24000 / 2) (0.0 : Float)
          warned := true } :=
  synthesize_empty_backend { pipelineOut := [none], sample_rate := 24000 } "Bonjour" rfl

/-- Claim C10: removing an absent session id is a no-op on the registry
(and `pop` with a default never raises, reflected by totality); removing
a present id removes exactly that entry and no other. -/
theorem remove_session_spec (m : Registry) (sid : String) :
    (m sid = none → remove_session m sid = m) ∧
    remove_session m sid sid = none ∧
    (∀ k, k ≠ sid → remove_session m sid k = m k) := by
  refine ⟨fun h => ?_, ?_, fun k hk => ?_⟩
  · funext k
    by_cases hk : k = sid
    · subst hk; simp [remove_session, h]
    · simp [remove_session, hk]
  · simp [remove_session]
  · simp [remove_session, hk]

/-- Claim C10 witness: on a one-entry registry, removing a missing id
changes nothing, and after removing "b" the entry at "a" survives. -/
theorem remove_session_witness :
    remove_session (fun k => if k = "a" then some freshSess else none) "b"
        = (fun k => if k = "a" then some freshSess else none) ∧
    remove_session (fun k => if k = "a" then some freshSess else none) "b" "a"
        = some freshSess := by
  refine ⟨(remove_session_spec (fun k => if k = "a" then some freshSess else none) "b").1 rfl, ?_⟩
  rw [(remove_session_spec (fun k => if k = "a" then some freshSess else none) "b").2.2 "a"
        (by decide)]
  simp

/-- An already-ended session. -/
def endedSess : Session :=
  { session_id := "e1", turns := [], created_at := 0
    ended := true, summary := none, sentiment := none }

/-- Claim C7 counterexample: `Session.add_turn` carries no guard on the
`ended` flag — called on an Ended session it appends a turn, so the claim
that no call path through the session type mutates an ended session's
turn list is false as stated. -/
theorem add_turn_on_ended_session_appends :
    endedSess.ended = true ∧
    (endedSess.add_turn "user" "Bonjour" "fr" 7).turns
      = [{ role := "user", text := "Bonjour", language := "fr", timestamp := 7 }] :=
  ⟨rfl, rfl⟩

/-- After `end_session`, the session is Ended and its turn list is what
it was. -/
theorem end_session_preserves_turns (env : AnalysisEnv) (s : Session) :
    (end_session env s).2.turns = s.turns ∧ (end_session env s).2.ended = true := by
  constructor <;> (dsimp only [end_session]; split <;> rfl)

/-- Claim C7 amended: `Session.add_turn` itself is unguarded (see the
counterexample), but through the transport loop no turn is ever appended
to an Ended session: handling `end_session` terminates the loop, so every
message after it is ignored — the result is independent of the remaining
stream, the turn list is exactly what it was when the session ended, and
the final state is Ended. -/
theorem no_frame_processed_after_end_session
    (env : AnalysisEnv) (s : Session) (rest : List ClientMsg) :
    handleFrames env s (ClientMsg.endSession :: rest)
      = handleFrames env s [ClientMsg.endSession] ∧
    (handleFrames env s (ClientMsg.endSession :: rest)).1.turns = s.turns ∧
    (handleFrames env s (ClientMsg.endSession :: rest)).1.ended = true := by
  have key : (handleFrames env s (ClientMsg.endSession :: rest)).1 = (end_session env s).2 := by
    rcases h : end_session env s with ⟨res, s'⟩
    rcases res with e | r <;> simp [handleFrames, h]
  have hp := end_session_preserves_turns env s
  refine ⟨rfl, ?_, ?_⟩
  · rw [key]; exact hp.1
  · rw [key]; exact hp.2

/-- A one-turn history. -/
def c3Hist : List HistEntry := [{ role := "user", text := "Bonjour" }]

/-- A plausible raw Summarizer reply: a JSON object with `summary` and
`sentiment` only, exactly as the prompt requests (braces written as
escapes). -/
def c3Raw : String :=
  "\x7b\"summary\": \"A greeting.\", \"sentiment\": \x7b\"overall\": \"positive\", \"score\": 0.8, \"details\": \"friendly\"\x7d\x7d"

/-- The dict `json.loads` produces for `c3Raw`. -/
def c3ParsedDict : PyDict :=
  [("summary", PyVal.pstr "A greeting."),
   ("sentiment", PyVal.pdict
      [("overall", PyVal.pstr "positive"),
       ("score", PyVal.pnum (4 / 5)),
       ("details", PyVal.pstr "friendly")])]

/-- `json.loads` on the strings this development feeds it: the object for
`c3Raw`, a parse error for anything else. -/
def c3Loads : String → Except String PyVal :=
  fun s => if s = c3Raw then Except.ok (PyVal.pdict c3ParsedDict)
           else Except.error "Expecting value: line 1 column 1 (char 0)"

/-- Environment with `GEMINI_API_KEY` unset. -/
def c3EnvNoKey : AnalysisEnv :=
  { apiKey := none, modelRaw := Except.ok c3Raw, loads := c3Loads }

/-- Environment with a key set and a well-formed Summarizer reply. -/
def c3EnvOk : AnalysisEnv :=
  { apiKey := some "test-key", modelRaw := Except.ok c3Raw, loads := c3Loads }

/-- Environment with a key set and a raising Summarizer call. -/
def c3EnvFault : AnalysisEnv :=
  { apiKey := some "test-key", modelRaw := Except.error "boom", loads := c3Loads }

/-- Claim C3 counterexample: on a non-empty history, (1) with
`GEMINI_API_KEY` unset, `analyze_conversation` propagates the
`RuntimeError` from `config.gemini_api_key` — raised before the `try`
block — to its caller; (2) on a successful parse, the returned dict is
the parsed object plus `turn_count`, and contains no `languages_used`
key.  Both contradict "never propagates an exception and always returns
a result containing summary, sentiment, turn_count, and
languages_used". -/
theorem analyze_raises_and_omits_languages :
    (analyze_conversation c3EnvNoKey c3Hist).result
      = Except.error "GEMINI_API_KEY not set. Copy .env.example to .env and add your key." ∧
    (analyze_conversation c3EnvOk c3Hist).result
      = Except.ok (dictSet c3ParsedDict "turn_count" (PyVal.pnum 1)) ∧
    dictGet (dictSet c3ParsedDict "turn_count" (PyVal.pnum 1)) "languages_used" = none :=
  ⟨rfl, rfl, rfl⟩

/-- Claim C3 amended: on a non-empty history, once the API key lookup
succeeds, `analyze_conversation` never propagates an exception: its
result is always `ok`, every returned dict carries the true history
length as `turn_count`, and any fault of the Summarizer call or of
parsing degrades to the fixed failure dict (summary = the fixed failure
string, sentiment overall "unknown" with score 0.5, details = the error
text, empty `languages_used`). -/
theorem analyze_nonempty_with_key_never_raises
    (env : AnalysisEnv) (history : List HistEntry)
    (hne : history ≠ []) (k : String)
    (hk : gemini_api_key env.apiKey = Except.ok k) :
    exceptIsOk (analyze_conversation env history).result = true ∧
    (∀ d, (analyze_conversation env history).result = Except.ok d →
        dictGet d "turn_count" = some (PyVal.pnum history.length)) ∧
    (∀ e, env.modelRaw = Except.error e →
        (analyze_conversation env history).result
          = Except.ok (failure_dict history.length e)) ∧
    (∀ rawText e, env.modelRaw = Except.ok rawText →
        env.loads (stripFences rawText) = Except.error e →
        (analyze_conversation env history).result
          = Except.ok (failure_dict history.length e)) := by
  cases history with
  | nil => exact absurd rfl hne
  | cons h0 t0 =>
    unfold analyze_conversation
    rw [hk]
    dsimp only
    cases hm : env.modelRaw with
    | error e =>
      refine ⟨rfl, ?_, ?_, ?_⟩
      · intro d hd
        injection hd with h
        rw [← h]
        rfl
      · intro e' he'
        injection he' with h
        rw [h]
      · intro rawText' e' hraw _hload
        exact absurd hraw (by simp)
    | ok rawText =>
      dsimp only
      cases hl : env.loads (stripFences rawText) with
      | error e =>
        dsimp only
        refine ⟨rfl, ?_, ?_, ?_⟩
        · intro d hd
          injection hd with h
          rw [← h]
          rfl
        · intro e' he'
          exact absurd he' (by simp)
        · intro rawText' e' hraw hload
          injection hraw with h
          subst h
          rw [hl] at hload
          injection hload with h
          rw [h]
      | ok v =>
        have hbad : ∀ e', Except.ok (ε := String) rawText = Except.error e' → False := by
          simp
        have hbad2 : ∀ rawText' e', Except.ok (ε := String) rawText = Except.ok rawText' →
            env.loads (stripFences rawText') = Except.error e' → False := by
          intro rawText' e' hraw hload
          injection hraw with h
          subst h
          rw [hl] at hload
          exact absurd hload (by simp)
        cases v <;>
          refine ⟨rfl, ?_, fun e' he' => (hbad e' he').elim,
                  fun rawText' e' hraw hload => (hbad2 rawText' e' hraw hload).elim⟩ <;>
          intro d hd <;> injection hd with h <;> rw [← h] <;>
          first
            | exact dictGet_dictSet_self ..
            | rfl

/-- Claim C3 witness: with a key set and a raising Summarizer call on a
one-turn history, the adapter returns `ok` with the degraded dict and
`turn_count = 1`. -/
theorem analyze_never_raises_witness :
    exceptIsOk (analyze_conversation c3EnvFault c3Hist).result = true ∧
    (analyze_conversation c3EnvFault c3Hist).result = Except.ok (failure_dict 1 "boom") := by
  have h := analyze_nonempty_with_key_never_raises c3EnvFault c3Hist (by decide) "test-key" rfl
  exact ⟨h.1, h.2.2.1 "boom" rfl⟩

/-- Claim C2 (code bug): for a well-formed ≥1000-byte frame whose
conversion succeeds and whose recognizer would yield "Bonjour"/"fr" with
the responder replying "Bonjour, comment puis-je vous aider?", the loop
emits NO events at all — not the claimed transcription/response/audio
triple — appends no turns, and force-ends the session: `main.py` never
awaits the `process_audio` coroutine, so evaluating `result.user_text`
raises `AttributeError` and tears the handler down. -/
theorem valid_frame_emits_nothing :
    handleFrames anEnvC freshSess [ClientMsg.audio 5000 (Except.ok ()) bonjourPenv]
      = (freshSess.end', [], [Eff.transcode]) ∧
    (freshSess.end').turns = [] ∧
    pyStrip (transcribe bonjourPenv.sttPass1 bonjourPenv.sttPass2).text = "Bonjour" :=
  ⟨rfl, rfl, rfl⟩

/-- Claim C4 (code bug): for a ≥1000-byte frame whose recognition would
be empty after trimming, the loop emits nothing — not even the claimed
empty `transcription` event — and force-ends the session (so `ended`
flips, contradicting "session state unchanged"): the un-awaited
`process_audio` coroutine is not `None`, and `result.user_text` raises
`AttributeError`. -/
theorem empty_recognition_frame_emits_nothing :
    handleFrames anEnvC freshSess [ClientMsg.audio 2000 (Except.ok ()) silencePenv]
      = (freshSess.end', [], [Eff.transcode]) ∧
    pyStrip (transcribe silencePenv.sttPass1 silencePenv.sttPass2).text = "" ∧
    (freshSess.end').ended = true ∧ freshSess.ended = false :=
  ⟨rfl, rfl, rfl, rfl⟩

end AiLive
